import Mathlib

/-!
Verification of the location-wishlist backend (src/backend/src/index.js).

The resolvers of the GraphQL service are embedded as pure functions over an
explicit `Store` holding the rows of the two Sequelize tables.  The Sequelize
model definitions themselves live in `src/backend/src/models`, which is not
part of the sources; their fields are modelled from the spec (section 3):
a `Location` has an opaque string id, an address, a nullable `imageURL` and an
`approved` boolean, and a `Suggestion` has an idea text, a `LocationId`
foreign key and an integer vote count.  Timestamps are irrelevant to every
property proved here and are omitted.

Database reads (`findOne`) return the first matching row; writes (`save`,
`destroy`) act on the row the enclosing resolver found, here the first match.
Errors thrown inside a `sequelize.transaction` are caught by the appended
`.catch(console.error)`, so the resolver yields no usable value; this is
modelled by explicit outcome types.
-/

namespace LocationWishlist

/-- A row of the Location table.  Fields modelled from the spec, section 3:
id (opaque identifier), address, nullable imageURL, approved flag. -/
structure Location where
  id : String
  address : String
  imageURL : Option String
  approved : Bool
  deriving Repr, DecidableEq

/-- A row of the Suggestion table: idea text, owning LocationId, vote count. -/
structure Suggestion where
  idea : String
  locationId : String
  votes : Int
  deriving Repr, DecidableEq

/-- The persistent state: the rows of the two tables, in insertion order. -/
structure Store where
  locations : List Location
  suggestions : List Suggestion
  deriving Repr, DecidableEq

/-- The JS string primitive `s.trim()`: the string without its leading and
trailing whitespace.  (Defined on the character list so that it evaluates by
kernel reduction; used only to compare against the empty string.) -/
def strTrim (s : String) : String :=
  ⟨((s.data.dropWhile Char.isWhitespace).reverse.dropWhile
      Char.isWhitespace).reverse⟩

/-- The JS string primitive `s.startsWith(p)`. -/
def strStartsWith (s p : String) : Bool :=
  p.data.isPrefixOf s.data

/-- The row filter used by every `Location.findOne({ where: { id } })`. -/
def locMatches (id : String) (l : Location) : Bool :=
  l.id == id

/-- The row filter of the vote resolvers `Suggestion.findOne`: the idea must
match and (through the `include` of the Location model with `where: { id }`,
an inner join on `Suggestion.LocationId = Location.id`) the owning Location
must be the one with the given identifier. -/
def sugMatches (id idea : String) (s : Suggestion) : Bool :=
  s.idea == idea && s.locationId == id

/-- `models.Location.findOne({ where: { id } })`: first row with that id. -/
def findLocation (st : Store) (id : String) : Option Location :=
  st.locations.find? (locMatches id)

/-- The `location(id)` query resolver (index.js lines 91-98). -/
def locationQuery (st : Store) (id : String) : Option Location :=
  findLocation st id

/-- The composite lookup of upVote/downVote (index.js lines 173-186):
`Suggestion.findOne` on the idea, inner-joined with the Location whose id is
given.  The join succeeds only when that Location row exists. -/
def findSuggestion (st : Store) (id idea : String) : Option Suggestion :=
  if st.locations.any (locMatches id) then
    st.suggestions.find? (sugMatches id idea)
  else
    none

/-- `suggestion.save()` after mutating `votes`: the row the resolver found
(the first match) is stored back with the new vote count. -/
def setVotesFirst (ss : List Suggestion) (id idea : String) (v : Int) :
    List Suggestion :=
  match ss with
  | [] => []
  | s :: rest =>
      if sugMatches id idea s then { s with votes := v } :: rest
      else s :: setVotesFirst rest id idea v

/-- upVote (index.js lines 168-195): inside a transaction, find the Suggestion
by (idea, LocationId), increment its votes, save, and return the new count.
When the lookup yields no row, the `suggestion.votes++` on `null` throws, the
`.catch` logs it, and the resolver yields no count (`none`). -/
def upVote (st : Store) (id idea : String) : Store × Option Int :=
  match findSuggestion st id idea with
  | some s =>
      ({ st with suggestions := setVotesFirst st.suggestions id idea (s.votes + 1) },
        some (s.votes + 1))
  | none => (st, none)

/-- downVote (index.js lines 196-223): identical to upVote except the count
is decremented. -/
def downVote (st : Store) (id idea : String) : Store × Option Int :=
  match findSuggestion st id idea with
  | some s =>
      ({ st with suggestions := setVotesFirst st.suggestions id idea (s.votes - 1) },
        some (s.votes - 1))
  | none => (st, none)

/-- `location.save()` after flipping `approved`: the found row is stored back
with the new flag. -/
def setApprovedFirst (ls : List Location) (id : String) (b : Bool) :
    List Location :=
  match ls with
  | [] => []
  | l :: rest =>
      if locMatches id l then { l with approved := b } :: rest
      else l :: setApprovedFirst rest id b

/-- approveLocation (index.js lines 224-242): inside a transaction, find the
Location, flip its approved boolean, save, return the new value.  A missing
row makes the transaction throw; the `.catch` leaves the resolver with no
value. -/
def approveLocation (st : Store) (id : String) : Store × Option Bool :=
  match findLocation st id with
  | some l =>
      ({ st with locations := setApprovedFirst st.locations id (!l.approved) },
        some (!l.approved))
  | none => (st, none)

/-- `location.destroy()`: the row the resolver found (the first match, and in
the database the unique row with that primary key) is deleted. -/
def destroyFirst (ls : List Location) (id : String) : List Location :=
  match ls with
  | [] => []
  | l :: rest =>
      if locMatches id l then rest
      else l :: destroyFirst rest id

/-- rejectLocation (index.js lines 243-260): inside a transaction, find the
Location, destroy it, and return the now stale approved value held by the
in-memory instance. -/
def rejectLocation (st : Store) (id : String) : Store × Option Bool :=
  match findLocation st id with
  | some l =>
      ({ st with locations := destroyFirst st.locations id }, some l.approved)
  | none => (st, none)

/-- Outcome of the addIdea resolver. -/
inductive AddIdeaOutcome where
  /-- One of the two validation checks threw before the transaction began. -/
  | thrown (msg : String)
  /-- Normal completion: the `created` flag of `findOrCreate`. -/
  | value (created : Bool)
  /-- The transaction rejected (the Location lookup found no row, so
  `location.id` threw); `.catch(console.error)` logged it and resolved to
  `undefined`, so the resolver produced no created flag for the caller. -/
  | failed
  deriving Repr, DecidableEq

/-- addIdea (index.js lines 134-167): validate both arguments, then inside a
transaction find the Location and `findOrCreate` the Suggestion scoped to
(idea, LocationId) with votes defaulted to 0; return the created flag. -/
def addIdea (st : Store) (id idea : String) : Store × AddIdeaOutcome :=
  if strTrim id == "" then
    (st, .thrown "Location ID cannot be empty string")
  else if strTrim idea == "" then
    (st, .thrown "Idea cannot be empty string")
  else
    match findLocation st id with
    | none => (st, .failed)
    | some loc =>
        match st.suggestions.find? (sugMatches loc.id idea) with
        | some _ => (st, .value false)
        | none =>
            ({ st with suggestions := st.suggestions ++ [⟨idea, loc.id, 0⟩] },
              .value true)

/-- Outcome of the synchronous part of the addLocation resolver. -/
inductive AddLocOutcome where
  /-- A validation check threw. -/
  | thrown (msg : String)
  /-- The resolver returned `true` (before the upload stream completed). -/
  | ok
  deriving Repr, DecidableEq

/-- Result of the synchronous part of addLocation: the store after the
resolver returns, its outcome, and the id of the Location whose image write
is still in flight (when a stream write was started). -/
structure AddLocResult where
  store : Store
  outcome : AddLocOutcome
  upload : Option String
  deriving Repr, DecidableEq

/-- addLocation, synchronous part (index.js lines 101-132): reject an
empty/whitespace address; create the Location row (approved defaults to
false, imageURL to null) with a fresh id; reject a non-image MIME type -
after the row was already created; otherwise start the object-store write
and return true at once, leaving the stream callbacks to run later. -/
def addLocation (st : Store) (freshId address mimetype : String) :
    AddLocResult :=
  if strTrim address == "" then
    ⟨st, .thrown "Address cannot be empty string", none⟩
  else
    let st2 : Store :=
      { st with locations := st.locations ++ [⟨freshId, address, none, false⟩] }
    if strStartsWith mimetype "image" then
      ⟨st2, .ok, some freshId⟩
    else
      ⟨st2, .thrown "The uploaded file has to be an image", none⟩

/-- `location.save()` from the stream finish callback: the created row is
stored back with its imageURL set. -/
def setImageFirst (ls : List Location) (id : String) (url : String) :
    List Location :=
  match ls with
  | [] => []
  | l :: rest =>
      if locMatches id l then { l with imageURL := some url } :: rest
      else l :: setImageFirst rest id url

/-- The stream `finish` callback (index.js lines 126-129): runs only after
the object-store write succeeded; sets the imageURL of the Location to the
URL and re-saves the row. -/
def uploadFinish (st : Store) (id url : String) : Store :=
  { st with locations := setImageFirst st.locations id url }

/-- The stream `error` callback (index.js lines 122-125): logs the error and
changes no row - the Location keeps its null imageURL, with no rollback. -/
def uploadError (st : Store) : Store :=
  st

/-- Modelled from the spec: the transaction isolation of the persistence layer is
configured in `src/backend/src/models`, absent from the sources; per the
spec (section 5) concurrent transactions touching the same row are atomic
and isolated, so N concurrent upVote calls execute as N atomic upVote steps
in some serial order.  All steps being identical, any order is this
iteration. -/
def iterUpVote (st : Store) (id idea : String) : Nat → Store
  | 0 => st
  | n + 1 => iterUpVote (upVote st id idea).1 id idea n

/-- The invariant of the spec, section 3: no two Suggestion rows share the
(idea, LocationId) pair. -/
def pairUnique (st : Store) : Prop :=
  st.suggestions.Pairwise fun a b => ¬(a.idea = b.idea ∧ a.locationId = b.locationId)

/-- A concrete store used by the witnesses: one approved=false Location and
one Suggestion with zero votes under it. -/
def demoStore : Store :=
  ⟨[⟨"L1", "40-12 Broadway", none, false⟩], [⟨"mural", "L1", 0⟩]⟩

/-- A second concrete store: two Locations carrying same-named Suggestions,
used to witness that votes are scoped to the owning Location. -/
def demoStore2 : Store :=
  ⟨[⟨"L1", "40-12 Broadway", none, false⟩, ⟨"L2", "29-10 Broadway", none, true⟩],
   [⟨"mural", "L1", 0⟩, ⟨"mural", "L2", 5⟩]⟩

theorem sugMatches_setVotes (id idea : String) (s : Suggestion) (v : Int) :
    sugMatches id idea { s with votes := v } = sugMatches id idea s := rfl

theorem find?_setVotesFirst (ss : List Suggestion) (id idea : String) (v : Int)
    (s : Suggestion) (h : ss.find? (sugMatches id idea) = some s) :
    (setVotesFirst ss id idea v).find? (sugMatches id idea)
      = some { s with votes := v } := by
  induction ss with
  | nil => simp at h
  | cons a rest ih =>
      by_cases hp : sugMatches id idea a = true
      · rw [List.find?_cons_of_pos _ hp] at h
        obtain rfl : a = s := by injection h
        simp only [setVotesFirst, hp, if_true]
        exact List.find?_cons_of_pos _ ((sugMatches_setVotes id idea a v).trans hp)
      · rw [List.find?_cons_of_neg _ hp] at h
        simp only [setVotesFirst, hp, if_false, Bool.false_eq_true]
        rw [List.find?_cons_of_neg _ hp]
        exact ih h

theorem findSuggestion_parts (st : Store) (id idea : String) (s : Suggestion)
    (h : findSuggestion st id idea = some s) :
    st.locations.any (locMatches id) = true
    ∧ st.suggestions.find? (sugMatches id idea) = some s := by
  unfold findSuggestion at h
  by_cases hc : st.locations.any (locMatches id) = true
  · rw [if_pos hc] at h; exact ⟨hc, h⟩
  · rw [if_neg hc] at h; exact absurd h (by simp)

theorem findSuggestion_upVote (st : Store) (id idea : String) (s : Suggestion)
    (h : findSuggestion st id idea = some s) :
    upVote st id idea
      = ({ st with suggestions := setVotesFirst st.suggestions id idea (s.votes + 1) },
          some (s.votes + 1))
    ∧ findSuggestion (upVote st id idea).1 id idea
      = some { s with votes := s.votes + 1 } := by
  obtain ⟨hany, hfind⟩ := findSuggestion_parts st id idea s h
  have hup : upVote st id idea
      = ({ st with suggestions := setVotesFirst st.suggestions id idea (s.votes + 1) },
          some (s.votes + 1)) := by
    unfold upVote; rw [h]
  refine ⟨hup, ?_⟩
  rw [hup]
  unfold findSuggestion
  rw [if_pos hany]
  exact find?_setVotesFirst st.suggestions id idea (s.votes + 1) s hfind

theorem findSuggestion_downVote (st : Store) (id idea : String) (s : Suggestion)
    (h : findSuggestion st id idea = some s) :
    downVote st id idea
      = ({ st with suggestions := setVotesFirst st.suggestions id idea (s.votes - 1) },
          some (s.votes - 1))
    ∧ findSuggestion (downVote st id idea).1 id idea
      = some { s with votes := s.votes - 1 } := by
  obtain ⟨hany, hfind⟩ := findSuggestion_parts st id idea s h
  have hdn : downVote st id idea
      = ({ st with suggestions := setVotesFirst st.suggestions id idea (s.votes - 1) },
          some (s.votes - 1)) := by
    unfold downVote; rw [h]
  refine ⟨hdn, ?_⟩
  rw [hdn]
  unfold findSuggestion
  rw [if_pos hany]
  exact find?_setVotesFirst st.suggestions id idea (s.votes - 1) s hfind

/-- Claim C1: for the stored Suggestion matching the given (idea, Location
identifier) pair, upVote increments its votes by exactly 1 and returns the
new count, and downVote decrements them by exactly 1 and returns the new
count. -/
theorem upVote_downVote_unit_step (st : Store) (id idea : String) (s : Suggestion)
    (h : findSuggestion st id idea = some s) :
    (upVote st id idea).2 = some (s.votes + 1)
    ∧ findSuggestion (upVote st id idea).1 id idea = some { s with votes := s.votes + 1 }
    ∧ (downVote st id idea).2 = some (s.votes - 1)
    ∧ findSuggestion (downVote st id idea).1 id idea
      = some { s with votes := s.votes - 1 } := by
  obtain ⟨hu, hu2⟩ := findSuggestion_upVote st id idea s h
  obtain ⟨hd, hd2⟩ := findSuggestion_downVote st id idea s h
  exact ⟨by rw [hu], hu2, by rw [hd], hd2⟩

/-- Witness for C1 on the demo store. -/
theorem upVote_downVote_unit_step_witness :
    findSuggestion demoStore "L1" "mural" = some ⟨"mural", "L1", 0⟩
    ∧ ((upVote demoStore "L1" "mural").2 = some 1
      ∧ findSuggestion (upVote demoStore "L1" "mural").1 "L1" "mural"
        = some ⟨"mural", "L1", 1⟩
      ∧ (downVote demoStore "L1" "mural").2 = some (-1)
      ∧ findSuggestion (downVote demoStore "L1" "mural").1 "L1" "mural"
        = some ⟨"mural", "L1", -1⟩) :=
  ⟨by decide, by
    have h := upVote_downVote_unit_step demoStore "L1" "mural" ⟨"mural", "L1", 0⟩ (by decide)
    simpa using h⟩

/-- Claim C2: N concurrent upVote calls on the same Suggestion serialize
through the enclosing transaction (serialization modelled from the spec,
section 5, since the persistence layer configuration is not in the sources),
so the final vote count is the initial count plus N - no increment is
lost. -/
theorem upVote_serialized_no_lost_update (st : Store) (id idea : String)
    (s : Suggestion) (n : Nat)
    (h : findSuggestion st id idea = some s) :
    findSuggestion (iterUpVote st id idea n) id idea
      = some { s with votes := s.votes + n } := by
  induction n generalizing st s with
  | zero => simpa using h
  | succ n ih =>
      obtain ⟨-, h2⟩ := findSuggestion_upVote st id idea s h
      have h3 := ih _ _ h2
      rw [iterUpVote, h3]
      congr 2
      push_cast
      ring

/-- Witness for C2: three serialized upVote calls take the demo Suggestion
from 0 to 3 votes. -/
theorem upVote_serialized_no_lost_update_witness :
    findSuggestion demoStore "L1" "mural" = some ⟨"mural", "L1", 0⟩
    ∧ findSuggestion (iterUpVote demoStore "L1" "mural" 3) "L1" "mural"
      = some ⟨"mural", "L1", 3⟩ :=
  ⟨by decide, by
    have h := upVote_serialized_no_lost_update demoStore "L1" "mural"
      ⟨"mural", "L1", 0⟩ 3 (by decide)
    simpa using h⟩

theorem filter_setVotesFirst_ne (ss : List Suggestion) (id idea : String) (v : Int)
    (idY : String) (hne : idY ≠ id) :
    (setVotesFirst ss id idea v).filter (fun s => s.locationId == idY)
      = ss.filter (fun s => s.locationId == idY) := by
  induction ss with
  | nil => rfl
  | cons a rest ih =>
      by_cases hp : sugMatches id idea a = true
      · have hid : a.locationId = id := by
          unfold sugMatches at hp
          simp only [Bool.and_eq_true, beq_iff_eq] at hp
          exact hp.2
        have hya : (a.locationId == idY) = false := by
          simp only [beq_eq_false_iff_ne, ne_eq, hid]
          exact fun hh => hne hh.symm
        simp only [setVotesFirst, hp, if_true, List.filter_cons]
        simp [hya]
      · simp only [setVotesFirst, hp, Bool.false_eq_true, if_false, List.filter_cons, ih]

/-- Claim C3: the vote resolvers locate the Suggestion by the composite
(idea text, owning Location identifier), so a vote issued with the identifier
of Location X leaves every Suggestion owned by a distinct Location Y
unchanged - in particular a same-named idea under Y keeps its votes. -/
theorem vote_scoped_to_location (st : Store) (idX idY idea : String)
    (hne : idY ≠ idX) :
    (upVote st idX idea).1.suggestions.filter (fun s => s.locationId == idY)
      = st.suggestions.filter (fun s => s.locationId == idY)
    ∧ (downVote st idX idea).1.suggestions.filter (fun s => s.locationId == idY)
      = st.suggestions.filter (fun s => s.locationId == idY) := by
  cases h : findSuggestion st idX idea with
  | none =>
      have hu : upVote st idX idea = (st, none) := by unfold upVote; rw [h]
      have hd : downVote st idX idea = (st, none) := by unfold downVote; rw [h]
      rw [hu, hd]
      exact ⟨rfl, rfl⟩
  | some s =>
      obtain ⟨hu, -⟩ := findSuggestion_upVote st idX idea s h
      obtain ⟨hd, -⟩ := findSuggestion_downVote st idX idea s h
      rw [hu, hd]
      exact ⟨filter_setVotesFirst_ne st.suggestions idX idea (s.votes + 1) idY hne,
        filter_setVotesFirst_ne st.suggestions idX idea (s.votes - 1) idY hne⟩

/-- Witness for C3 on the two-Location store with same-named ideas. -/
theorem vote_scoped_to_location_witness :
    ("L2" : String) ≠ "L1"
    ∧ ((upVote demoStore2 "L1" "mural").1.suggestions.filter
          (fun s => s.locationId == "L2")
        = demoStore2.suggestions.filter (fun s => s.locationId == "L2")
      ∧ (downVote demoStore2 "L1" "mural").1.suggestions.filter
          (fun s => s.locationId == "L2")
        = demoStore2.suggestions.filter (fun s => s.locationId == "L2")) :=
  ⟨by decide, vote_scoped_to_location demoStore2 "L1" "L2" "mural" (by decide)⟩

theorem setVotesFirst_setVotesFirst (ss : List Suggestion) (id idea : String)
    (v w : Int) :
    setVotesFirst (setVotesFirst ss id idea v) id idea w
      = setVotesFirst ss id idea w := by
  induction ss with
  | nil => rfl
  | cons a rest ih =>
      by_cases hp : sugMatches id idea a = true
      · have hp2 : sugMatches id idea { a with votes := v } = true :=
          (sugMatches_setVotes id idea a v).trans hp
        simp only [setVotesFirst, hp, if_true, hp2]
      · simp only [setVotesFirst, hp, Bool.false_eq_true, if_false, ih]

theorem setVotesFirst_self (ss : List Suggestion) (id idea : String) (s : Suggestion)
    (h : ss.find? (sugMatches id idea) = some s) :
    setVotesFirst ss id idea s.votes = ss := by
  induction ss with
  | nil => rfl
  | cons a rest ih =>
      by_cases hp : sugMatches id idea a = true
      · rw [List.find?_cons_of_pos _ hp] at h
        obtain rfl : a = s := by injection h
        simp only [setVotesFirst, hp, if_true]
      · rw [List.find?_cons_of_neg _ hp] at h
        simp only [setVotesFirst, hp, Bool.false_eq_true, if_false, ih h]

/-- Claim C10: upVote followed by downVote on the same (Location identifier,
idea) returns the votes of the Suggestion to their original value - the
second call returns the original count and the store round-trips exactly. -/
theorem upVote_downVote_roundtrip (st : Store) (id idea : String) (s : Suggestion)
    (h : findSuggestion st id idea = some s) :
    (downVote (upVote st id idea).1 id idea).2 = some s.votes
    ∧ (downVote (upVote st id idea).1 id idea).1 = st := by
  obtain ⟨hany, hfind⟩ := findSuggestion_parts st id idea s h
  obtain ⟨hu, hu2⟩ := findSuggestion_upVote st id idea s h
  obtain ⟨hd, hd2⟩ := findSuggestion_downVote (upVote st id idea).1 id idea _ hu2
  have e1 : (upVote st id idea).1
      = { st with suggestions := setVotesFirst st.suggestions id idea (s.votes + 1) } := by
    rw [hu]
  constructor
  · rw [hd]
    show some (s.votes + 1 - 1) = some s.votes
    congr 1
    ring
  · rw [hd]
    show { (upVote st id idea).1 with
        suggestions := setVotesFirst (upVote st id idea).1.suggestions id idea
          (s.votes + 1 - 1) } = st
    rw [e1]
    show { st with
        suggestions := setVotesFirst (setVotesFirst st.suggestions id idea (s.votes + 1))
          id idea (s.votes + 1 - 1) } = st
    rw [setVotesFirst_setVotesFirst]
    have hv : s.votes + 1 - 1 = s.votes := by ring
    rw [hv, setVotesFirst_self st.suggestions id idea s hfind]

/-- Witness for C10 on the demo store. -/
theorem upVote_downVote_roundtrip_witness :
    findSuggestion demoStore "L1" "mural" = some ⟨"mural", "L1", 0⟩
    ∧ ((downVote (upVote demoStore "L1" "mural").1 "L1" "mural").2 = some 0
      ∧ (downVote (upVote demoStore "L1" "mural").1 "L1" "mural").1 = demoStore) :=
  ⟨by decide,
    upVote_downVote_roundtrip demoStore "L1" "mural" ⟨"mural", "L1", 0⟩ (by decide)⟩

theorem locMatches_setImage (id : String) (l : Location) (url : String) :
    locMatches id { l with imageURL := some url } = locMatches id l := rfl

theorem locMatches_setApproved (id : String) (l : Location) (b : Bool) :
    locMatches id { l with approved := b } = locMatches id l := rfl

theorem find?_setImageFirst (ls : List Location) (id url : String) (l : Location)
    (h : ls.find? (locMatches id) = some l) :
    (setImageFirst ls id url).find? (locMatches id)
      = some { l with imageURL := some url } := by
  induction ls with
  | nil => simp at h
  | cons a rest ih =>
      by_cases hp : locMatches id a = true
      · rw [List.find?_cons_of_pos _ hp] at h
        obtain rfl : a = l := by injection h
        simp only [setImageFirst, hp, if_true]
        exact List.find?_cons_of_pos _ ((locMatches_setImage id a url).trans hp)
      · rw [List.find?_cons_of_neg _ hp] at h
        simp only [setImageFirst, hp, Bool.false_eq_true, if_false]
        rw [List.find?_cons_of_neg _ hp]
        exact ih h

theorem find?_setApprovedFirst (ls : List Location) (id : String) (b : Bool)
    (l : Location) (h : ls.find? (locMatches id) = some l) :
    (setApprovedFirst ls id b).find? (locMatches id) = some { l with approved := b } := by
  induction ls with
  | nil => simp at h
  | cons a rest ih =>
      by_cases hp : locMatches id a = true
      · rw [List.find?_cons_of_pos _ hp] at h
        obtain rfl : a = l := by injection h
        simp only [setApprovedFirst, hp, if_true]
        exact List.find?_cons_of_pos _ ((locMatches_setApproved id a b).trans hp)
      · rw [List.find?_cons_of_neg _ hp] at h
        simp only [setApprovedFirst, hp, Bool.false_eq_true, if_false]
        rw [List.find?_cons_of_neg _ hp]
        exact ih h

theorem find?_append_fresh (ls : List Location) (l0 : Location)
    (hfresh : ∀ l ∈ ls, l.id ≠ l0.id) :
    (ls ++ [l0]).find? (locMatches l0.id) = some l0 := by
  rw [List.find?_append]
  have h1 : ls.find? (locMatches l0.id) = none := by
    rw [List.find?_eq_none]
    intro x hx
    simp only [locMatches, beq_iff_eq]
    exact hfresh x hx
  rw [h1]
  simp [locMatches]

/-- Claim C4: the imageURL of a Location is non-null only after the
object-store write succeeded and the finish callback re-saved the record: the
row created by addLocation carries a null imageURL, the error callback leaves
the row unchanged (with its null imageURL, no rollback), and only the finish
callback produces a row with a non-null imageURL. -/
theorem addLocation_imageURL_lifecycle (st : Store)
    (freshId address mimetype url : String)
    (hfresh : ∀ l ∈ st.locations, l.id ≠ freshId)
    (haddr : ¬ strTrim address = "")
    (himg : strStartsWith mimetype "image" = true) :
    findLocation (addLocation st freshId address mimetype).store freshId
      = some ⟨freshId, address, none, false⟩
    ∧ uploadError (addLocation st freshId address mimetype).store
      = (addLocation st freshId address mimetype).store
    ∧ findLocation (uploadError (addLocation st freshId address mimetype).store) freshId
      = some ⟨freshId, address, none, false⟩
    ∧ findLocation
        (uploadFinish (addLocation st freshId address mimetype).store freshId url) freshId
      = some ⟨freshId, address, some url, false⟩ := by
  have ha : (strTrim address == "") = false := by simp [haddr]
  have e : addLocation st freshId address mimetype
      = ⟨{ st with locations := st.locations ++ [⟨freshId, address, none, false⟩] },
          .ok, some freshId⟩ := by
    unfold addLocation
    simp only [ha, Bool.false_eq_true, if_false, himg, if_true]
  have hrow : (st.locations ++ [(⟨freshId, address, none, false⟩ : Location)]).find?
      (locMatches freshId) = some ⟨freshId, address, none, false⟩ :=
    find?_append_fresh st.locations ⟨freshId, address, none, false⟩ hfresh
  refine ⟨?_, rfl, ?_, ?_⟩
  · rw [e]; exact hrow
  · rw [e]; exact hrow
  · rw [e]
    show (setImageFirst (st.locations ++ [⟨freshId, address, none, false⟩])
        freshId url).find? (locMatches freshId)
      = some ⟨freshId, address, some url, false⟩
    exact find?_setImageFirst _ freshId url _ hrow

/-- Witness for C4: a fresh submission against the demo store. -/
theorem addLocation_imageURL_lifecycle_witness :
    (∀ l ∈ demoStore.locations, l.id ≠ "L9")
    ∧ (¬ strTrim "32-13 Broadway" = "")
    ∧ strStartsWith "image/png" "image" = true
    ∧ (findLocation (addLocation demoStore "L9" "32-13 Broadway" "image/png").store "L9"
        = some ⟨"L9", "32-13 Broadway", none, false⟩
      ∧ uploadError (addLocation demoStore "L9" "32-13 Broadway" "image/png").store
        = (addLocation demoStore "L9" "32-13 Broadway" "image/png").store
      ∧ findLocation
          (uploadError (addLocation demoStore "L9" "32-13 Broadway" "image/png").store) "L9"
        = some ⟨"L9", "32-13 Broadway", none, false⟩
      ∧ findLocation
          (uploadFinish (addLocation demoStore "L9" "32-13 Broadway" "image/png").store "L9"
            "https://storage.cloud.google.com/astoriatech-wishlist-images/L9.png") "L9"
        = some ⟨"L9", "32-13 Broadway",
            some "https://storage.cloud.google.com/astoriatech-wishlist-images/L9.png",
            false⟩) :=
  ⟨by decide, by decide, by decide,
    addLocation_imageURL_lifecycle demoStore "L9" "32-13 Broadway" "image/png"
      "https://storage.cloud.google.com/astoriatech-wishlist-images/L9.png"
      (by decide) (by decide) (by decide)⟩

/-- Claim C5: addIdea is find-or-create on the composite (idea, LocationId):
it never produces two Suggestions with the same pair, it reports creation
(value true) exactly when no matching row existed and then appends one row
with votes initialized to 0, it reports value false when the idea already
existed for that Location, and a second identical call creates no row and
returns false. -/
theorem addIdea_find_or_create (st : Store) (id idea : String) (loc : Location)
    (hid : ¬ strTrim id = "") (hidea : ¬ strTrim idea = "")
    (hloc : findLocation st id = some loc)
    (hu : pairUnique st) :
    pairUnique (addIdea st id idea).1
    ∧ (st.suggestions.find? (sugMatches loc.id idea) = none →
        (addIdea st id idea).2 = .value true
        ∧ (addIdea st id idea).1.suggestions = st.suggestions ++ [⟨idea, loc.id, 0⟩])
    ∧ (st.suggestions.find? (sugMatches loc.id idea) ≠ none →
        (addIdea st id idea).2 = .value false ∧ (addIdea st id idea).1 = st)
    ∧ (addIdea (addIdea st id idea).1 id idea).2 = .value false
    ∧ (addIdea (addIdea st id idea).1 id idea).1 = (addIdea st id idea).1 := by
  have h1 : (strTrim id == "") = false := by simp [hid]
  have h2 : (strTrim idea == "") = false := by simp [hidea]
  have estep : ∀ st1 : Store, findLocation st1 id = some loc →
      addIdea st1 id idea
        = (match st1.suggestions.find? (sugMatches loc.id idea) with
            | some _ => (st1, .value false)
            | none => ({ st1 with suggestions := st1.suggestions ++ [⟨idea, loc.id, 0⟩] },
                .value true)) := by
    intro st1 hh
    unfold addIdea
    simp only [h1, Bool.false_eq_true, if_false, h2]
    rw [hh]
  cases hcase : st.suggestions.find? (sugMatches loc.id idea) with
  | some s =>
      have e : addIdea st id idea = (st, .value false) := by
        rw [estep st hloc, hcase]
      have e2 : addIdea (addIdea st id idea).1 id idea = (st, .value false) := by
        rw [e]
        show addIdea st id idea = (st, .value false)
        exact e
      refine ⟨?_, ?_, fun _ => ⟨by rw [e], by rw [e]⟩, ?_, ?_⟩
      · rw [e]; exact hu
      · intro hn; simp at hn
      · rw [e2]
      · rw [e2, e]
  | none =>
      have e : addIdea st id idea
          = ({ st with suggestions := st.suggestions ++ [⟨idea, loc.id, 0⟩] },
              .value true) := by
        rw [estep st hloc, hcase]
      have hloc2 : findLocation
          ({ st with suggestions := st.suggestions ++ [⟨idea, loc.id, 0⟩] } : Store) id
          = some loc := hloc
      have hfind2 : ({ st with
            suggestions := st.suggestions ++ [⟨idea, loc.id, 0⟩] } : Store).suggestions.find?
          (sugMatches loc.id idea) = some ⟨idea, loc.id, 0⟩ := by
        show (st.suggestions ++ [(⟨idea, loc.id, 0⟩ : Suggestion)]).find?
            (sugMatches loc.id idea) = some ⟨idea, loc.id, 0⟩
        rw [List.find?_append, hcase]
        simp [sugMatches]
      have e2 : addIdea (addIdea st id idea).1 id idea
          = ({ st with suggestions := st.suggestions ++ [⟨idea, loc.id, 0⟩] },
              .value false) := by
        rw [e]
        show addIdea ({ st with suggestions := st.suggestions ++ [⟨idea, loc.id, 0⟩] } : Store)
            id idea = _
        rw [estep _ hloc2, hfind2]
      refine ⟨?_, fun _ => ⟨by rw [e], by rw [e]⟩, ?_, ?_, ?_⟩
      · rw [e]
        show pairUnique { st with suggestions := st.suggestions ++ [⟨idea, loc.id, 0⟩] }
        unfold pairUnique at hu ⊢
        show List.Pairwise (fun a b => ¬(a.idea = b.idea ∧ a.locationId = b.locationId))
            (st.suggestions ++ [⟨idea, loc.id, 0⟩])
        rw [List.pairwise_append]
        refine ⟨hu, by simp, ?_⟩
        intro a ha b hb
        rw [List.mem_singleton] at hb
        subst hb
        rintro ⟨hia, hla⟩
        have hnone := List.find?_eq_none.mp hcase a ha
        apply hnone
        show sugMatches loc.id idea a = true
        unfold sugMatches
        simp only [Bool.and_eq_true, beq_iff_eq]
        exact ⟨hia, hla⟩
      · intro hn; exact absurd rfl hn
      · rw [e2]
      · rw [e2, e]

/-- Witness for C5: adding a new idea to the demo store once and twice. -/
theorem addIdea_find_or_create_witness :
    (¬ strTrim "L1" = "") ∧ (¬ strTrim "bakery" = "")
    ∧ findLocation demoStore "L1" = some ⟨"L1", "40-12 Broadway", none, false⟩
    ∧ pairUnique demoStore
    ∧ pairUnique (addIdea demoStore "L1" "bakery").1
    ∧ ((addIdea demoStore "L1" "bakery").2 = .value true
      ∧ (addIdea demoStore "L1" "bakery").1.suggestions
        = demoStore.suggestions ++ [⟨"bakery", "L1", 0⟩])
    ∧ (addIdea (addIdea demoStore "L1" "bakery").1 "L1" "bakery").2 = .value false
    ∧ (addIdea (addIdea demoStore "L1" "bakery").1 "L1" "bakery").1
      = (addIdea demoStore "L1" "bakery").1 := by
  have h := addIdea_find_or_create demoStore "L1" "bakery"
    ⟨"L1", "40-12 Broadway", none, false⟩ (by decide) (by decide) (by decide)
    (by unfold pairUnique; simp [demoStore])
  exact ⟨by decide, by decide, by decide, by unfold pairUnique; simp [demoStore],
    h.1, h.2.1 (by decide), h.2.2.2.1, h.2.2.2.2⟩

/-- Claim C6: approveLocation is a toggle, not a set-to-true: one call flips
the approved boolean of the found Location and returns the new value, and two
successive calls on a Location with approved=false take it from false to true
and back to false. -/
theorem approveLocation_toggle (st : Store) (id : String) (l : Location)
    (h : findLocation st id = some l) :
    (approveLocation st id).2 = some (!l.approved)
    ∧ findLocation (approveLocation st id).1 id = some { l with approved := !l.approved }
    ∧ (l.approved = false →
        (approveLocation st id).2 = some true
        ∧ (approveLocation (approveLocation st id).1 id).2 = some false
        ∧ findLocation (approveLocation (approveLocation st id).1 id).1 id = some l) := by
  have estep : ∀ (st1 : Store) (l1 : Location), findLocation st1 id = some l1 →
      approveLocation st1 id
        = ({ st1 with locations := setApprovedFirst st1.locations id (!l1.approved) },
            some (!l1.approved)) := by
    intro st1 l1 hh
    unfold approveLocation
    rw [hh]
  have e1 := estep st l h
  have hf1 : findLocation (approveLocation st id).1 id
      = some { l with approved := !l.approved } := by
    rw [e1]
    exact find?_setApprovedFirst st.locations id (!l.approved) l h
  have e2 := estep (approveLocation st id).1 { l with approved := !l.approved } hf1
  have hf2 : findLocation (approveLocation (approveLocation st id).1 id).1 id
      = some l := by
    rw [e2]
    have h2 := find?_setApprovedFirst (approveLocation st id).1.locations id
      (!({ l with approved := !l.approved } : Location).approved)
      { l with approved := !l.approved } hf1
    show (setApprovedFirst (approveLocation st id).1.locations id
        (!({ l with approved := !l.approved } : Location).approved)).find? (locMatches id)
      = some l
    rw [h2]
    show some { l with approved := !(!l.approved) } = some l
    rw [Bool.not_not]
  refine ⟨by rw [e1], hf1, fun hl => ⟨?_, ?_, hf2⟩⟩
  · rw [e1, hl]
    rfl
  · rw [e2, hl]
    rfl

/-- Witness for C6 on the demo store, whose Location starts unapproved. -/
theorem approveLocation_toggle_witness :
    findLocation demoStore "L1" = some ⟨"L1", "40-12 Broadway", none, false⟩
    ∧ ((approveLocation demoStore "L1").2 = some true
      ∧ findLocation (approveLocation demoStore "L1").1 "L1"
        = some ⟨"L1", "40-12 Broadway", none, true⟩
      ∧ (false = false →
          (approveLocation demoStore "L1").2 = some true
          ∧ (approveLocation (approveLocation demoStore "L1").1 "L1").2 = some false
          ∧ findLocation (approveLocation (approveLocation demoStore "L1").1 "L1").1 "L1"
            = some ⟨"L1", "40-12 Broadway", none, false⟩)) :=
  ⟨by decide,
    approveLocation_toggle demoStore "L1" ⟨"L1", "40-12 Broadway", none, false⟩ (by decide)⟩

theorem find?_destroyFirst_none (ls : List Location) (id : String)
    (hnd : ls.Pairwise fun a b => a.id ≠ b.id) :
    (destroyFirst ls id).find? (locMatches id) = none := by
  induction ls with
  | nil => rfl
  | cons a rest ih =>
      rw [List.pairwise_cons] at hnd
      obtain ⟨ha, hrest⟩ := hnd
      by_cases hp : locMatches id a = true
      · have haid : a.id = id := by simpa [locMatches] using hp
        simp only [destroyFirst, hp, if_true]
        rw [List.find?_eq_none]
        intro x hx hx2
        have hxid : x.id = id := by simpa [locMatches] using hx2
        exact ha x hx (haid.trans hxid.symm)
      · simp only [destroyFirst, hp, Bool.false_eq_true, if_false]
        rw [List.find?_cons_of_neg _ hp]
        exact ih hrest

/-- Claim C7: rejectLocation destroys the found Location record and returns
its now-stale approved value, and a subsequent location(id) lookup with that
identifier returns not-found. -/
theorem rejectLocation_removes (st : Store) (id : String) (l : Location)
    (h : findLocation st id = some l)
    (hnd : st.locations.Pairwise fun a b => a.id ≠ b.id) :
    (rejectLocation st id).2 = some l.approved
    ∧ locationQuery (rejectLocation st id).1 id = none := by
  have e : rejectLocation st id
      = ({ st with locations := destroyFirst st.locations id }, some l.approved) := by
    unfold rejectLocation; rw [h]
  refine ⟨by rw [e], ?_⟩
  rw [e]
  exact find?_destroyFirst_none st.locations id hnd

/-- Witness for C7 on the demo store. -/
theorem rejectLocation_removes_witness :
    findLocation demoStore "L1" = some ⟨"L1", "40-12 Broadway", none, false⟩
    ∧ demoStore.locations.Pairwise (fun a b => a.id ≠ b.id)
    ∧ ((rejectLocation demoStore "L1").2 = some false
      ∧ locationQuery (rejectLocation demoStore "L1").1 "L1" = none) :=
  ⟨by decide, by simp [demoStore],
    rejectLocation_removes demoStore "L1" ⟨"L1", "40-12 Broadway", none, false⟩
      (by decide) (by simp [demoStore])⟩

/-- Claim C8: for a non-empty address and a photo whose declared MIME type is
not an image type, addLocation fails with the validation error, but only
after the Location row was already created, so the failed call leaves an
orphan row with approved=false and null imageURL, and no upload is
started. -/
theorem addLocation_rejects_after_create (st : Store)
    (freshId address mimetype : String)
    (haddr : ¬ strTrim address = "")
    (himg : strStartsWith mimetype "image" = false) :
    (addLocation st freshId address mimetype).outcome
      = .thrown "The uploaded file has to be an image"
    ∧ (addLocation st freshId address mimetype).store.locations
      = st.locations ++ [⟨freshId, address, none, false⟩]
    ∧ (addLocation st freshId address mimetype).upload = none := by
  have ha : (strTrim address == "") = false := by simp [haddr]
  unfold addLocation
  simp [ha, himg]

/-- Witness for C8: a text/plain upload against the demo store. -/
theorem addLocation_rejects_after_create_witness :
    (¬ strTrim "32-13 Broadway" = "")
    ∧ strStartsWith "text/plain" "image" = false
    ∧ ((addLocation demoStore "L9" "32-13 Broadway" "text/plain").outcome
        = .thrown "The uploaded file has to be an image"
      ∧ (addLocation demoStore "L9" "32-13 Broadway" "text/plain").store.locations
        = demoStore.locations ++ [⟨"L9", "32-13 Broadway", none, false⟩]
      ∧ (addLocation demoStore "L9" "32-13 Broadway" "text/plain").upload = none) :=
  ⟨by decide, by decide,
    addLocation_rejects_after_create demoStore "L9" "32-13 Broadway" "text/plain"
      (by decide) (by decide)⟩

/-- Claim C9: when the Location identifier of an addIdea call matches no
Location, the failure inside the transaction is caught and logged rather than
surfaced structurally: the caller observes no created flag (no distinguishable
not-found error) and no Suggestion row is created - the store is unchanged. -/
theorem addIdea_missing_location (st : Store) (id idea : String)
    (hid : ¬ strTrim id = "") (hidea : ¬ strTrim idea = "")
    (hloc : findLocation st id = none) :
    (addIdea st id idea).2 = .failed ∧ (addIdea st id idea).1 = st := by
  have h1 : (strTrim id == "") = false := by simp [hid]
  have h2 : (strTrim idea == "") = false := by simp [hidea]
  unfold addIdea
  simp only [h1, Bool.false_eq_true, if_false, h2]
  rw [hloc]
  exact ⟨rfl, rfl⟩

/-- Witness for C9: an unknown Location identifier against the demo store. -/
theorem addIdea_missing_location_witness :
    (¬ strTrim "L9" = "") ∧ (¬ strTrim "bakery" = "")
    ∧ findLocation demoStore "L9" = none
    ∧ ((addIdea demoStore "L9" "bakery").2 = .failed
      ∧ (addIdea demoStore "L9" "bakery").1 = demoStore) :=
  ⟨by decide, by decide, by decide,
    addIdea_missing_location demoStore "L9" "bakery" (by decide) (by decide) (by decide)⟩

end LocationWishlist
